import Mathlib

/-!
Shallow embedding of `src/OpenSSL.cpp` — the OpenSSL thread-safety glue
layer (static mutex table, dynamic lock handles, lifecycle Init/Destroy).

Modelling conventions:
- A pthread mutex is a small state machine (`MutexState`), per the lock
  lifecycle Uninitialized → Idle → Locked → Idle → … → Destroyed.
- The process globals `OpenSSL::mutexes` / `OpenSSL::numMutexes` and the
  five registered callbacks are fields of `GlobalState`.  The table pointer
  is an `Option Nat` address into an explicit heap of allocations, so that
  a null pointer (`none`) is distinguished from a dangling pointer
  (`some a` with no live allocation at `a`).
- Calls into OpenSSL / pthread that `ClassInit` / `ClassDestroy` perform
  are recorded, in execution order, as an `Event` trace.
- Return codes of `pthread_mutex_init` / `pthread_mutex_destroy` and the
  value of `CRYPTO_num_locks()` are supplied by an environment `Env`.
- Undefined behavior (out-of-range index, use of a freed handle, null or
  dangling dereference) is represented by `none` / `Option`.
-/

namespace OpenSSL

/-- State machine of one pthread mutex. -/
inductive MutexState
  | uninit
  | idle
  | locked
  | destroyed
deriving DecidableEq

/-- Model of `pthread_mutex_lock`: returns (only) with the mutex acquired; defined
here for an idle mutex (locking a locked mutex blocks forever in the
single-threaded embedding; locking an uninitialized or destroyed mutex is
undefined behavior). -/
def pthreadMutexLock : MutexState → Option MutexState
  | MutexState.idle => some MutexState.locked
  | _ => none

/-- Model of `pthread_mutex_unlock`: defined for a locked mutex; unlocking without a
matching lock is undefined behavior. -/
def pthreadMutexUnlock : MutexState → Option MutexState
  | MutexState.locked => some MutexState.idle
  | _ => none

/-- Model of `pthread_mutex_destroy`: defined for an idle (unlocked, initialized)
mutex; destroying a locked or uninitialized mutex is undefined behavior. -/
def pthreadMutexDestroyOp : MutexState → Option MutexState
  | MutexState.idle => some MutexState.destroyed
  | _ => none

/-- Calls made by `ClassInit` / `ClassDestroy`, recorded in execution
order. -/
inductive Event
  | sslLoadErrorStrings
  | sslLibraryInit
  | randPoll
  | allocMutexTable (n : Nat)
  | pthreadMutexInit (slot : Nat)
  | setThreadIdCallback (registered : Bool)
  | setLockingCallback (registered : Bool)
  | setDynCreateCallback (registered : Bool)
  | setDynLockCallback (registered : Bool)
  | setDynDestroyCallback (registered : Bool)
  | errRemoveThreadState
  | engineCleanup
  | errFreeStrings
  | evpCleanup
  | cryptoCleanupAllExData
  | skSSLCompFree
  | pthreadMutexDestroy (slot : Nat) (err : Int)
  | msError (slot : Nat)
  | freeMutexTable
deriving DecidableEq

/-- Errors thrown by `MS_THROW_ERROR` in `ClassInit`. -/
inductive MSError
  | allocFailed
  | mutexInitFailed
deriving DecidableEq

/-- The process-wide static state of the `OpenSSL` class: the globals
`OpenSSL::mutexes` (a pointer: `none` = `nullptr`) and
`OpenSSL::numMutexes`, the live heap allocations of mutex tables
(address ↦ contents), a fresh-address counter, and which of the five
OpenSSL callbacks are currently registered. -/
structure GlobalState where
  mutexes : Option Nat
  numMutexes : Int
  heap : List (Nat × List MutexState)
  nextAddr : Nat
  threadIdCb : Bool
  lockingCb : Bool
  dynCreateCb : Bool
  dynLockCb : Bool
  dynDestroyCb : Bool
deriving DecidableEq

/-- The state before `ClassInit` ever runs: both globals at their static
initializers (`nullptr` / `0`), nothing allocated, no callback
registered. -/
def initialState : GlobalState :=
  { mutexes := none
    numMutexes := 0
    heap := []
    nextAddr := 0
    threadIdCb := false
    lockingCb := false
    dynCreateCb := false
    dynLockCb := false
    dynDestroyCb := false }

/-- Environment: the value of `CRYPTO_num_locks()` and the return codes
that `pthread_mutex_init` / `pthread_mutex_destroy` produce for each
slot. -/
structure Env where
  numLocks : Nat
  mutexInitErr : Nat → Int
  mutexDestroyErr : Nat → Int

/-- An environment whose pthread-init calls all succeed (`destroyErr` is
left free so that teardown-failure behavior can be studied). -/
def mkEnv (numLocks : Nat) (destroyErr : Nat → Int) : Env :=
  { numLocks := numLocks, mutexInitErr := fun _ => 0, mutexDestroyErr := destroyErr }

/-- An environment where every pthread call succeeds. -/
def zeroEnv (numLocks : Nat) : Env := mkEnv numLocks (fun _ => 0)

/-- A `pthread_mutex_destroy` return-code assignment where slot 1 fails
with `EBUSY` (16) and every other slot succeeds. -/
def dFail : Nat → Int := fun i => if i = 1 then 16 else 0

/-- Lookup of a live allocation in the mutex-table heap. -/
def heapLookup (h : List (Nat × List MutexState)) (a : Nat) : Option (List MutexState) :=
  (h.find? fun p => p.1 == a).map fun p => p.2

/-- Overwrite the contents of the allocation at address `a`. -/
def heapUpdate (h : List (Nat × List MutexState)) (a : Nat) (t : List MutexState) :
    List (Nat × List MutexState) :=
  h.map fun p => if p.1 = a then (a, t) else p

/-- Effect of `delete[]` on the allocation at address `a`. -/
def heapFree (h : List (Nat × List MutexState)) (a : Nat) :
    List (Nat × List MutexState) :=
  h.filter fun p => p.1 != a

/-- The `for (int i=0; i<numMutexes; i++) pthread_mutex_init(...)` loop of
`ClassInit`, over the listed slot indices: each `pthread_mutex_init`
returns `mutexInitErr i`; a nonzero return throws `MS_THROW_ERROR`. -/
def initLoop (mutexInitErr : Nat → Int) :
    List Nat → List MutexState → Except MSError (List MutexState × List Event)
  | [], table => Except.ok (table, [])
  | i :: rest, table =>
    if mutexInitErr i ≠ 0 then Except.error MSError.mutexInitFailed
    else
      match initLoop mutexInitErr rest (table.set i MutexState.idle) with
      | Except.error e => Except.error e
      | Except.ok (t, evs) => Except.ok (t, Event.pthreadMutexInit i :: evs)

/-- The trace `ClassInit` produces on success: library bootstrap, table
allocation, per-slot mutex initialization, then the five callback
registrations. -/
def initTrace (n : Nat) : List Event :=
  [Event.sslLoadErrorStrings, Event.sslLibraryInit, Event.randPoll,
   Event.allocMutexTable n] ++
  (List.range n).map Event.pthreadMutexInit ++
  [Event.setThreadIdCallback true, Event.setLockingCallback true,
   Event.setDynCreateCallback true, Event.setDynLockCallback true,
   Event.setDynDestroyCallback true]

/-- Embedding of `OpenSSL::ClassInit()`:
`SSL_load_error_strings(); SSL_library_init(); RAND_poll();`
`mutexes = new pthread_mutex_t[CRYPTO_num_locks()];` (with the dead
null-check throwing `MS_THROW_ERROR`); `numMutexes = CRYPTO_num_locks();`
the per-slot `pthread_mutex_init` loop; then the five
`CRYPTO_*_set_*_callback` registrations. -/
def ClassInit (env : Env) (s : GlobalState) :
    Except MSError (GlobalState × List Event) :=
  let addr := s.nextAddr
  let table0 : List MutexState := List.replicate env.numLocks MutexState.uninit
  let s1 : GlobalState :=
    { s with mutexes := some addr
             heap := (addr, table0) :: s.heap
             nextAddr := s.nextAddr + 1 }
  if s1.mutexes = none then Except.error MSError.allocFailed
  else
    let s2 : GlobalState := { s1 with numMutexes := (env.numLocks : Int) }
    match initLoop env.mutexInitErr (List.range env.numLocks) table0 with
    | Except.error e => Except.error e
    | Except.ok (table, initEvs) =>
      let s3 : GlobalState :=
        { s2 with heap := heapUpdate s2.heap addr table
                  threadIdCb := true
                  lockingCb := true
                  dynCreateCb := true
                  dynLockCb := true
                  dynDestroyCb := true }
      Except.ok (s3,
        [Event.sslLoadErrorStrings, Event.sslLibraryInit, Event.randPoll,
         Event.allocMutexTable env.numLocks] ++
        initEvs ++
        [Event.setThreadIdCallback true, Event.setLockingCallback true,
         Event.setDynCreateCallback true, Event.setDynLockCallback true,
         Event.setDynDestroyCallback true])

/-- The `for (int i=0; i<numMutexes; i++) pthread_mutex_destroy(...)` loop
of `ClassDestroy`: each call returns `mutexDestroyErr i`; a nonzero return
is reported via `MS_ERROR` and the loop continues.  Accessing a slot out of
the table's bounds is undefined behavior. -/
def destroySlots (mutexDestroyErr : Nat → Int) :
    List Nat → List MutexState → Option (List MutexState × List Event)
  | [], table => some (table, [])
  | i :: rest, table =>
    match table[i]? with
    | none => none
    | some _ =>
      let err := mutexDestroyErr i
      let table1 := if err = 0 then table.set i MutexState.destroyed else table
      match destroySlots mutexDestroyErr rest table1 with
      | none => none
      | some (t, evs) =>
        some (t, (Event.pthreadMutexDestroy i err ::
                  (if err ≠ 0 then [Event.msError i] else [])) ++ evs)

/-- The trace `ClassDestroy` produces after a successful `ClassInit` with
`n` slots, when `pthread_mutex_destroy` returns `d i` on slot `i`:
per-thread/global cleanup calls, the destroy loop (with an `MS_ERROR`
report after every failing destroy), `delete[]` of the table, then the five
callback deregistrations. -/
def destroyTrace (d : Nat → Int) (n : Nat) : List Event :=
  [Event.errRemoveThreadState, Event.engineCleanup, Event.errFreeStrings,
   Event.evpCleanup, Event.cryptoCleanupAllExData, Event.skSSLCompFree] ++
  ((List.range n).flatMap fun i =>
    Event.pthreadMutexDestroy i (d i) ::
    (if d i ≠ 0 then [Event.msError i] else [])) ++
  [Event.freeMutexTable] ++
  [Event.setThreadIdCallback false, Event.setLockingCallback false,
   Event.setDynCreateCallback false, Event.setDynLockCallback false,
   Event.setDynDestroyCallback false]

/-- Embedding of `OpenSSL::ClassDestroy()`:
`ERR_remove_thread_state(nullptr); ENGINE_cleanup(); ERR_free_strings();`
`EVP_cleanup(); CRYPTO_cleanup_all_ex_data();`
`sk_SSL_COMP_free(SSL_COMP_get_compression_methods());`
the per-slot `pthread_mutex_destroy` loop (zero iterations when
`numMutexes ≤ 0`, so the table pointer is then never dereferenced);
`if (mutexes) delete[] mutexes;` and finally the five callbacks reset to
`nullptr`.  The globals `mutexes` / `numMutexes` themselves are not
written.  Undefined behavior (dereferencing a null or dangling table
pointer) yields `none`. -/
def ClassDestroy (env : Env) (s : GlobalState) :
    Option (GlobalState × List Event) :=
  let cleanupEvs : List Event :=
    [Event.errRemoveThreadState, Event.engineCleanup, Event.errFreeStrings,
     Event.evpCleanup, Event.cryptoCleanupAllExData, Event.skSSLCompFree]
  let step5a : Option (GlobalState × List Event) :=
    match s.mutexes, s.numMutexes.toNat with
    | _, 0 => some (s, [])
    | none, _ + 1 => none
    | some addr, k + 1 =>
      match heapLookup s.heap addr with
      | none => none
      | some table =>
        (destroySlots env.mutexDestroyErr (List.range (k + 1)) table).map
          fun r => ({ s with heap := heapUpdate s.heap addr r.1 }, r.2)
  match step5a with
  | none => none
  | some (s1, loopEvs) =>
    let step5b : Option (GlobalState × List Event) :=
      match s1.mutexes with
      | none => some (s1, [])
      | some addr =>
        match heapLookup s1.heap addr with
        | none => none
        | some _ =>
          some ({ s1 with heap := heapFree s1.heap addr }, [Event.freeMutexTable])
    match step5b with
    | none => none
    | some (s2, freeEvs) =>
      some ({ s2 with threadIdCb := false
                      lockingCb := false
                      dynCreateCb := false
                      dynLockCb := false
                      dynDestroyCb := false },
            cleanupEvs ++ loopEvs ++ freeEvs ++
            [Event.setThreadIdCallback false, Event.setLockingCallback false,
             Event.setDynCreateCallback false, Event.setDynLockCallback false,
             Event.setDynDestroyCallback false])

/-- The global state `ClassInit` produces from `initialState` when every
`pthread_mutex_init` succeeds and `CRYPTO_num_locks() = n`. -/
def postInit (n : Nat) : GlobalState :=
  { mutexes := some 0
    numMutexes := (n : Int)
    heap := [(0, List.replicate n MutexState.idle)]
    nextAddr := 1
    threadIdCb := true
    lockingCb := true
    dynCreateCb := true
    dynLockCb := true
    dynDestroyCb := true }

/-- The global state after `ClassDestroy` runs on `postInit n`: the table
allocation is gone and the callbacks are deregistered, but `mutexes` still
holds the (now dangling) address and `numMutexes` still holds `n`. -/
def postDestroy (n : Nat) : GlobalState :=
  { mutexes := some 0
    numMutexes := (n : Int)
    heap := []
    nextAddr := 1
    threadIdCb := false
    lockingCb := false
    dynCreateCb := false
    dynLockCb := false
    dynDestroyCb := false }

/-- The global state a second `ClassInit` produces when run after
`ClassDestroy` (i.e. from `postDestroy n`): identical to `postInit n`
except that the fresh table lives at the next heap address. -/
def postReInit (n : Nat) : GlobalState :=
  { postInit n with mutexes := some 1,
                    heap := [(1, List.replicate n MutexState.idle)],
                    nextAddr := 2 }

/-- Value of `CRYPTO_LOCK` (0x01). -/
def CRYPTO_LOCK : Nat := 1
/-- Value of `CRYPTO_UNLOCK` (0x02). -/
def CRYPTO_UNLOCK : Nat := 2
/-- Value of `CRYPTO_READ` (0x04). -/
def CRYPTO_READ : Nat := 4
/-- Value of `CRYPTO_WRITE` (0x08). -/
def CRYPTO_WRITE : Nat := 8

/-- The single table access `mutexes[n]` that `LockingFunction` performs:
defined exactly for `0 ≤ n < length` (anything else is undefined
behavior — the source performs no bounds check). -/
def tableAccess (table : List MutexState) (n : Int) : Option MutexState :=
  if 0 ≤ n then table[n.toNat]? else none

/-- Embedding of `OpenSSL::LockingFunction(mode, n, file, line)`:
`if (mode & CRYPTO_LOCK) pthread_mutex_lock(&mutexes[n]);`
`else pthread_mutex_unlock(&mutexes[n]);`
acting on the mutex table (the `file` / `line` arguments are unused). -/
def LockingFunction (mode : Nat) (n : Int) (table : List MutexState) :
    Option (List MutexState) :=
  if mode &&& CRYPTO_LOCK ≠ 0 then
    (tableAccess table n).bind fun m =>
      (pthreadMutexLock m).map fun m2 => table.set n.toNat m2
  else
    (tableAccess table n).bind fun m =>
      (pthreadMutexUnlock m).map fun m2 => table.set n.toNat m2

/-- Record `CRYPTO_dynlock_value`, holding one pthread mutex. -/
structure CRYPTO_dynlock_value where
  mutex : MutexState
deriving DecidableEq

/-- Heap of live dynamic-lock handles: address ↦ record, plus a
fresh-address counter. -/
structure DynHeap where
  heap : List (Nat × CRYPTO_dynlock_value)
  nextAddr : Nat
deriving DecidableEq

/-- Lookup of a live dynamic-lock handle. -/
def dynLookup (l : List (Nat × CRYPTO_dynlock_value)) (a : Nat) :
    Option CRYPTO_dynlock_value :=
  (l.find? fun p => p.1 == a).map fun p => p.2

/-- Overwrite the record of the handle at address `a`. -/
def dynUpdate (l : List (Nat × CRYPTO_dynlock_value)) (a : Nat)
    (v : CRYPTO_dynlock_value) : List (Nat × CRYPTO_dynlock_value) :=
  l.map fun p => if p.1 = a then (a, v) else p

/-- Effect of `delete` on the handle at address `a`. -/
def dynFree (l : List (Nat × CRYPTO_dynlock_value)) (a : Nat) :
    List (Nat × CRYPTO_dynlock_value) :=
  l.filter fun p => p.1 != a

/-- Result of `DynCreateFunction`: either the function returns a pointer
value (`none` standing for `nullptr`), or it does not return because
`MS_ABORT` terminated the process. -/
inductive DynCreateResult
  | ret (value : Option Nat) (h : DynHeap)
  | aborted
deriving DecidableEq

/-- Whether a `DynCreateFunction` outcome is a `nullptr` return to the
library. -/
def returnsNull : DynCreateResult → Bool
  | DynCreateResult.ret none _ => true
  | _ => false

/-- Embedding of `OpenSSL::DynCreateFunction(file, line)`:
`value = new CRYPTO_dynlock_value;` — `allocOk` tells whether the
allocation produced a (non-null) record; on the null outcome the source
runs `MS_ABORT` (its trailing `return nullptr` is unreachable).  On
success `pthread_mutex_init(&value->mutex, nullptr)` runs and the record's
address is returned. -/
def DynCreateFunction (allocOk : Bool) (h : DynHeap) : DynCreateResult :=
  match (if allocOk then some h.nextAddr else none : Option Nat) with
  | none => DynCreateResult.aborted
  | some addr =>
    let h1 : DynHeap :=
      { heap := (addr, { mutex := MutexState.uninit }) :: h.heap
        nextAddr := h.nextAddr + 1 }
    let h2 : DynHeap :=
      { h1 with heap := dynUpdate h1.heap addr { mutex := MutexState.idle } }
    DynCreateResult.ret (some addr) h2

/-- Embedding of `OpenSSL::DynLockFunction(mode, v, file, line)`:
`if (mode & CRYPTO_LOCK) pthread_mutex_lock(&v->mutex);`
`else pthread_mutex_unlock(&v->mutex);` — using a handle that is not live
is undefined behavior. -/
def DynLockFunction (mode : Nat) (addr : Nat) (h : DynHeap) : Option DynHeap :=
  match dynLookup h.heap addr with
  | none => none
  | some v =>
    if mode &&& CRYPTO_LOCK ≠ 0 then
      (pthreadMutexLock v.mutex).map fun m =>
        { h with heap := dynUpdate h.heap addr { mutex := m } }
    else
      (pthreadMutexUnlock v.mutex).map fun m =>
        { h with heap := dynUpdate h.heap addr { mutex := m } }

/-- Embedding of `OpenSSL::DynDestroyFunction(v, file, line)`:
`pthread_mutex_destroy(&v->mutex); delete v;` — using a handle that is not
live is undefined behavior. -/
def DynDestroyFunction (addr : Nat) (h : DynHeap) : Option DynHeap :=
  match dynLookup h.heap addr with
  | none => none
  | some v =>
    (pthreadMutexDestroyOp v.mutex).map fun _ =>
      { h with heap := dynFree h.heap addr }

/-! Helper lemmas. -/

theorem initLoop_zero :
    ∀ (idxs : List Nat) (table : List MutexState),
      initLoop (fun _ => 0) idxs table
        = Except.ok (idxs.foldl (fun t i => t.set i MutexState.idle) table,
                     idxs.map Event.pthreadMutexInit) := by
  intro idxs
  induction idxs with
  | nil => intro table; rfl
  | cons i rest ih =>
    intro table
    simp only [initLoop, ne_eq, not_true_eq_false, if_false, ih, List.foldl_cons,
      List.map_cons, reduceIte]

theorem foldl_set_succ_cons (x : MutexState) :
    ∀ (l : List Nat) (rest : List MutexState),
      l.foldl (fun t i => t.set (i + 1) MutexState.idle) (x :: rest)
        = x :: l.foldl (fun t i => t.set i MutexState.idle) rest := by
  intro l
  induction l with
  | nil => intro rest; rfl
  | cons j js ih =>
    intro rest
    simp only [List.foldl_cons, List.set_cons_succ, ih]

theorem range_foldl_set (n : Nat) :
    (List.range n).foldl (fun t i => t.set i MutexState.idle)
        (List.replicate n MutexState.uninit)
      = List.replicate n MutexState.idle := by
  induction n with
  | zero => rfl
  | succ k ih =>
    simp only [List.range_succ_eq_map, List.replicate_succ, List.foldl_cons,
      List.set_cons_zero, List.foldl_map, Nat.succ_eq_add_one]
    rw [foldl_set_succ_cons, ih]

theorem classInit_eval (n : Nat) (d : Nat → Int) (s : GlobalState) :
    ClassInit (mkEnv n d) s = Except.ok
      ({ s with mutexes := some s.nextAddr
                numMutexes := (n : Int)
                heap := heapUpdate
                          ((s.nextAddr, List.replicate n MutexState.uninit) :: s.heap)
                          s.nextAddr (List.replicate n MutexState.idle)
                nextAddr := s.nextAddr + 1
                threadIdCb := true
                lockingCb := true
                dynCreateCb := true
                dynLockCb := true
                dynDestroyCb := true },
       initTrace n) := by
  simp only [ClassInit, mkEnv, initLoop_zero, range_foldl_set, initTrace]
  simp

theorem destroySlots_eval (d : Nat → Int) :
    ∀ (idxs : List Nat) (table : List MutexState),
      (∀ i ∈ idxs, i < table.length) →
      ∃ t, destroySlots d idxs table
          = some (t, idxs.flatMap fun i =>
              Event.pthreadMutexDestroy i (d i) ::
              (if d i ≠ 0 then [Event.msError i] else []))
        ∧ t.length = table.length := by
  intro idxs
  induction idxs with
  | nil => intro table _; exact ⟨table, rfl, rfl⟩
  | cons i rest ih =>
    intro table h
    have hi : i < table.length := h i (List.mem_cons_self i rest)
    have hget : table[i]? = some table[i] := List.getElem?_eq_getElem hi
    have hlen1 : (if d i = 0 then table.set i MutexState.destroyed else table).length
        = table.length := by
      split <;> simp
    obtain ⟨t, hrec, hlen⟩ :=
      ih (if d i = 0 then table.set i MutexState.destroyed else table)
        (fun j hj => by rw [hlen1]; exact h j (List.mem_cons_of_mem i hj))
    refine ⟨t, ?_, by rw [hlen, hlen1]⟩
    simp only [destroySlots, hget, hrec, List.flatMap_cons]

theorem flatMap_destroy_zero (l : List Nat) :
    (l.flatMap fun i =>
        Event.pthreadMutexDestroy i ((fun _ => (0 : Int)) i) ::
        (if (fun _ => (0 : Int)) i ≠ 0 then [Event.msError i] else []))
      = l.map fun i => Event.pthreadMutexDestroy i 0 := by
  induction l with
  | nil => rfl
  | cons i rest ih => simp only [List.flatMap_cons, List.map_cons, ih]; rfl

theorem classDestroy_eval (n : Nat) (dInit dDestroy : Nat → Int) :
    ClassDestroy { numLocks := n, mutexInitErr := dInit, mutexDestroyErr := dDestroy }
        (postInit n)
      = some (postDestroy n, destroyTrace dDestroy n) := by
  cases n with
  | zero => rfl
  | succ k =>
    have hbound : ∀ i ∈ List.range (k + 1),
        i < (List.replicate (k + 1) MutexState.idle).length := by
      intro i hi
      simpa using List.mem_range.mp hi
    obtain ⟨t, hds, hlen⟩ := destroySlots_eval dDestroy (List.range (k + 1))
      (List.replicate (k + 1) MutexState.idle) hbound
    simp [ClassDestroy, postInit, heapLookup, heapUpdate, heapFree, hds,
      destroyTrace, postDestroy, List.find?, List.filter]

theorem classInit_from_start (n : Nat) (d : Nat → Int) :
    ClassInit (mkEnv n d) initialState = Except.ok (postInit n, initTrace n) := by
  rw [classInit_eval]
  simp [initialState, postInit, heapUpdate]

theorem classInit_after_destroy (n : Nat) (d : Nat → Int) :
    ClassInit (mkEnv n d) (postDestroy n) = Except.ok (postReInit n, initTrace n) := by
  rw [classInit_eval]
  simp [postDestroy, postInit, postReInit, heapUpdate]

theorem dynUpdate_fresh (a : Nat) (v : CRYPTO_dynlock_value) :
    ∀ (l : List (Nat × CRYPTO_dynlock_value)), (∀ p ∈ l, p.1 ≠ a) →
      dynUpdate l a v = l := by
  intro l
  induction l with
  | nil => intro _; rfl
  | cons x xs ih =>
    intro h
    have ht := ih fun p hp => h p (List.mem_cons_of_mem x hp)
    simp only [dynUpdate, List.map_cons] at ht ⊢
    rw [if_neg (h x (List.mem_cons_self x xs)), ht]

theorem dynFree_fresh (a : Nat) :
    ∀ (l : List (Nat × CRYPTO_dynlock_value)), (∀ p ∈ l, p.1 ≠ a) →
      dynFree l a = l := by
  intro l
  induction l with
  | nil => intro _; rfl
  | cons x xs ih =>
    intro h
    have ht := ih fun p hp => h p (List.mem_cons_of_mem x hp)
    simp only [dynFree, List.filter_cons] at ht ⊢
    rw [if_pos (bne_iff_ne.mpr (h x (List.mem_cons_self x xs))), ht]

theorem count_range_map_init (n i : Nat) :
    ((List.range n).map Event.pthreadMutexInit).count (Event.pthreadMutexInit i)
      = if i < n then 1 else 0 := by
  induction n with
  | zero => simp
  | succ k ih =>
    rw [List.range_succ, List.map_append, List.count_append, ih]
    simp only [List.map_cons, List.map_nil, List.count_singleton, beq_iff_eq,
      Event.pthreadMutexInit.injEq]
    split_ifs <;> omega

theorem count_range_map_destroy (n i : Nat) :
    ((List.range n).map fun j => Event.pthreadMutexDestroy j 0).count
        (Event.pthreadMutexDestroy i 0)
      = if i < n then 1 else 0 := by
  induction n with
  | zero => simp
  | succ k ih =>
    rw [List.range_succ, List.map_append, List.count_append, ih]
    simp only [List.map_cons, List.map_nil, List.count_singleton, beq_iff_eq,
      Event.pthreadMutexDestroy.injEq, and_true]
    split_ifs <;> omega

theorem count_flatMap_destroy_free (d : Nat → Int) (n : Nat) :
    ((List.range n).flatMap fun i =>
        Event.pthreadMutexDestroy i (d i) ::
        (if d i ≠ 0 then [Event.msError i] else [])).count Event.freeMutexTable
      = 0 := by
  rw [List.count_eq_zero]
  intro hmem
  obtain ⟨j, _, hm⟩ := List.mem_flatMap.mp hmem
  rcases List.mem_cons.mp hm with h | h
  · exact absurd h (by simp)
  · split at h
    · simp at h
    · simp at h

theorem count_free_destroyTrace (d : Nat → Int) (n : Nat) :
    (destroyTrace d n).count Event.freeMutexTable = 1 := by
  rw [destroyTrace]
  simp only [List.count_append, count_flatMap_destroy_free]
  decide

theorem mem_destroyTrace_destroy (d : Nat → Int) (n i : Nat) (h : i < n) :
    Event.pthreadMutexDestroy i (d i) ∈ destroyTrace d n := by
  rw [destroyTrace]
  refine List.mem_append.mpr (Or.inl (List.mem_append.mpr (Or.inl
    (List.mem_append.mpr (Or.inr ?_)))))
  exact List.mem_flatMap.mpr ⟨i, List.mem_range.mpr h, List.mem_cons_self _ _⟩

theorem mem_destroyTrace_msError (d : Nat → Int) (n i : Nat) (h : i < n)
    (hd : d i ≠ 0) : Event.msError i ∈ destroyTrace d n := by
  rw [destroyTrace]
  refine List.mem_append.mpr (Or.inl (List.mem_append.mpr (Or.inl
    (List.mem_append.mpr (Or.inr ?_)))))
  refine List.mem_flatMap.mpr ⟨i, List.mem_range.mpr h, ?_⟩
  rw [if_pos hd]
  exact List.mem_cons_of_mem _ (List.mem_cons_self _ _)

theorem lor_land_one (m k : Nat) (hk : Nat.testBit k 0 = false) :
    (m ||| k) &&& 1 = m &&& 1 := by
  apply Nat.eq_of_testBit_eq
  intro j
  cases j with
  | zero => simp only [Nat.testBit_and, Nat.testBit_or, hk, Bool.or_false]
  | succ jj => simp [Nat.testBit_succ]

theorem lockingFunction_lor_read (mode : Nat) (n : Int) (table : List MutexState) :
    LockingFunction (mode ||| CRYPTO_READ) n table = LockingFunction mode n table := by
  simp only [LockingFunction, CRYPTO_LOCK, CRYPTO_READ,
    lor_land_one mode 4 (by decide)]

theorem lockingFunction_lor_write (mode : Nat) (n : Int) (table : List MutexState) :
    LockingFunction (mode ||| CRYPTO_WRITE) n table = LockingFunction mode n table := by
  simp only [LockingFunction, CRYPTO_LOCK, CRYPTO_WRITE,
    lor_land_one mode 8 (by decide)]

theorem dynUpdate_cons_self (a : Nat) (v w : CRYPTO_dynlock_value)
    (l : List (Nat × CRYPTO_dynlock_value)) (h : ∀ p ∈ l, p.1 ≠ a) :
    dynUpdate ((a, w) :: l) a v = (a, v) :: l := by
  have ht := dynUpdate_fresh a v l h
  simp only [dynUpdate, List.map_cons] at ht ⊢
  simp [ht]

theorem dynFree_cons_self (a : Nat) (w : CRYPTO_dynlock_value)
    (l : List (Nat × CRYPTO_dynlock_value)) (h : ∀ p ∈ l, p.1 ≠ a) :
    dynFree ((a, w) :: l) a = l := by
  have ht := dynFree_fresh a l h
  simp only [dynFree, List.filter_cons] at ht ⊢
  simp [ht]

/-! Claim theorems. -/

/-- Claim C1 counterexample: after a successful `ClassInit` with two static
locks followed by `ClassDestroy`, the process-wide globals are NOT back at
their pre-Init values — `mutexes` still holds the (now dangling) address
of the freed table and `numMutexes` still holds 2, refuting the claim that
Destroy resets them to `nullptr` / `0`. -/
theorem classDestroy_reset_claim_cex :
    ClassInit (mkEnv 2 fun _ => 0) initialState
      = Except.ok (postInit 2, initTrace 2) ∧
    ClassDestroy (mkEnv 2 fun _ => 0) (postInit 2)
      = some (postDestroy 2, destroyTrace (fun _ => 0) 2) ∧
    ¬ ((postDestroy 2).mutexes = none ∧ (postDestroy 2).numMutexes = 0) :=
  ⟨classInit_from_start 2 _, classDestroy_eval 2 _ _, by decide⟩

/-- Claim C1 (amended): `ClassDestroy` after a successful `ClassInit` frees the
table and deregisters the callbacks but does NOT reset the globals —
`mutexes` keeps its (now dangling) address and `numMutexes` keeps its
count; nevertheless a subsequent `ClassInit` succeeds identically (same
slot count, same fully-initialized table contents, same callback
registrations, same event trace), because `ClassInit` unconditionally
overwrites both globals. -/
theorem classDestroy_globals_not_reset_but_reinit_succeeds (n : Nat) (d : Nat → Int) :
    ClassInit (mkEnv n d) initialState = Except.ok (postInit n, initTrace n) ∧
    ClassDestroy (mkEnv n d) (postInit n) = some (postDestroy n, destroyTrace d n) ∧
    (postDestroy n).mutexes = (postInit n).mutexes ∧
    (postDestroy n).numMutexes = (postInit n).numMutexes ∧
    (postDestroy n).mutexes = some 0 ∧
    heapLookup (postDestroy n).heap 0 = none ∧
    ClassInit (mkEnv n d) (postDestroy n) = Except.ok (postReInit n, initTrace n) ∧
    (postReInit n).numMutexes = (postInit n).numMutexes ∧
    heapLookup (postReInit n).heap 1 = some (List.replicate n MutexState.idle) ∧
    (postReInit n).threadIdCb = true ∧ (postReInit n).lockingCb = true ∧
    (postReInit n).dynCreateCb = true ∧ (postReInit n).dynLockCb = true ∧
    (postReInit n).dynDestroyCb = true :=
  ⟨classInit_from_start n d, classDestroy_eval n _ d, rfl, rfl, rfl, rfl,
   classInit_after_destroy n d, rfl, rfl, rfl, rfl, rfl, rfl, rfl⟩

/-- Claim C2: `ClassInit` performs, in this order: (1) the one-time library
bootstrap (`SSL_load_error_strings`, `SSL_library_init`, `RAND_poll`);
(2) allocation of the mutex table sized to `CRYPTO_num_locks()`;
(3) `pthread_mutex_init` on every slot `0..n-1` in order; (4) registration
of the five callbacks — no callback is registered before every slot is
initialized, as the exact event trace shows. -/
theorem classInit_steps_in_order (n : Nat) (d : Nat → Int) :
    ClassInit (mkEnv n d) initialState = Except.ok (postInit n, initTrace n) ∧
    initTrace n =
      [Event.sslLoadErrorStrings, Event.sslLibraryInit, Event.randPoll,
       Event.allocMutexTable n] ++
      (List.range n).map Event.pthreadMutexInit ++
      [Event.setThreadIdCallback true, Event.setLockingCallback true,
       Event.setDynCreateCallback true, Event.setDynLockCallback true,
       Event.setDynDestroyCallback true] :=
  ⟨classInit_from_start n d, rfl⟩

/-- Claim C3: `ClassDestroy` performs, in this order: (1)
`ERR_remove_thread_state`; (2) `ENGINE_cleanup`; (3) `ERR_free_strings`,
`EVP_cleanup`, `CRYPTO_cleanup_all_ex_data`; (4) `sk_SSL_COMP_free` of the
compression-method table; (5) `pthread_mutex_destroy` on every slot
followed by `delete[]` of the table; (6) deregistration of all five
callbacks — as the exact event trace shows. -/
theorem classDestroy_steps_in_order (n : Nat) :
    ClassInit (zeroEnv n) initialState = Except.ok (postInit n, initTrace n) ∧
    ClassDestroy (zeroEnv n) (postInit n)
      = some (postDestroy n, destroyTrace (fun _ => 0) n) ∧
    destroyTrace (fun _ => 0) n =
      [Event.errRemoveThreadState, Event.engineCleanup, Event.errFreeStrings,
       Event.evpCleanup, Event.cryptoCleanupAllExData, Event.skSSLCompFree] ++
      (List.range n).map (fun i => Event.pthreadMutexDestroy i 0) ++
      [Event.freeMutexTable] ++
      [Event.setThreadIdCallback false, Event.setLockingCallback false,
       Event.setDynCreateCallback false, Event.setDynLockCallback false,
       Event.setDynDestroyCallback false] := by
  refine ⟨classInit_from_start n _, classDestroy_eval n _ _, ?_⟩
  rw [destroyTrace, flatMap_destroy_zero]

/-- Claim C4: for every mode and slot, `LockingFunction` takes the slot's single
exclusive mutex exactly when the `CRYPTO_LOCK` bit is set and releases it
otherwise; setting the `CRYPTO_READ` or `CRYPTO_WRITE` bits never changes
which action is taken or which mutex is used. -/
theorem lockingFunction_lock_bit_selects_action (mode : Nat) (n : Int)
    (table : List MutexState) :
    LockingFunction mode n table =
      (if mode &&& CRYPTO_LOCK ≠ 0 then
        (tableAccess table n).bind fun m =>
          (pthreadMutexLock m).map fun m2 => table.set n.toNat m2
      else
        (tableAccess table n).bind fun m =>
          (pthreadMutexUnlock m).map fun m2 => table.set n.toNat m2) ∧
    LockingFunction (mode ||| CRYPTO_READ) n table = LockingFunction mode n table ∧
    LockingFunction (mode ||| CRYPTO_WRITE) n table = LockingFunction mode n table ∧
    LockingFunction (mode ||| CRYPTO_READ ||| CRYPTO_WRITE) n table
      = LockingFunction mode n table :=
  ⟨rfl, lockingFunction_lor_read mode n table, lockingFunction_lor_write mode n table,
   by rw [lockingFunction_lor_write (mode ||| CRYPTO_READ) n table,
          lockingFunction_lor_read mode n table]⟩

/-- Claim C5: for every `n ≥ 0` returned by `CRYPTO_num_locks()`, `ClassInit`
allocates and initializes exactly `n` mutexes (one `pthread_mutex_init`
per slot `i < n`, none for any other slot, and the live table holds
exactly `n` idle mutexes) and `ClassDestroy` destroys exactly those `n`
(one `pthread_mutex_destroy` per slot `i < n`, none for any other slot)
and frees the table exactly once. -/
theorem init_destroy_mutex_accounting (n i : Nat) :
    ClassInit (zeroEnv n) initialState = Except.ok (postInit n, initTrace n) ∧
    ClassDestroy (zeroEnv n) (postInit n)
      = some (postDestroy n, destroyTrace (fun _ => 0) n) ∧
    heapLookup (postInit n).heap 0 = some (List.replicate n MutexState.idle) ∧
    (List.replicate n MutexState.idle).length = n ∧
    (initTrace n).count (Event.pthreadMutexInit i) = (if i < n then 1 else 0) ∧
    (destroyTrace (fun _ => 0) n).count (Event.pthreadMutexDestroy i 0)
      = (if i < n then 1 else 0) ∧
    (destroyTrace (fun _ => 0) n).count Event.freeMutexTable = 1 := by
  refine ⟨classInit_from_start n _, classDestroy_eval n _ _, rfl, by simp, ?_, ?_,
    count_free_destroyTrace _ n⟩
  · rw [initTrace]
    simp [List.count_append, count_range_map_init, List.count_cons]
  · rw [destroyTrace, flatMap_destroy_zero]
    simp [List.count_append, count_range_map_destroy, List.count_cons]

/-- Claim C6: a full dynamic-lock round trip — `DynCreateFunction`, then
`DynLockFunction` with `CRYPTO_LOCK`, then `DynLockFunction` with
`CRYPTO_UNLOCK`, then `DynDestroyFunction` — succeeds, and
`DynDestroyFunction` destroys exactly the one mutex the create call
initialized and frees exactly the one record it allocated: the heap
returns to its baseline contents. -/
theorem dynlock_roundtrip (h0 : DynHeap)
    (hfresh : ∀ p ∈ h0.heap, p.1 < h0.nextAddr) :
    ∃ h1 h2 h3 h4,
      DynCreateFunction true h0 = DynCreateResult.ret (some h0.nextAddr) h1 ∧
      DynLockFunction CRYPTO_LOCK h0.nextAddr h1 = some h2 ∧
      DynLockFunction CRYPTO_UNLOCK h0.nextAddr h2 = some h3 ∧
      DynDestroyFunction h0.nextAddr h3 = some h4 ∧
      h4.heap = h0.heap ∧ h4.nextAddr = h0.nextAddr + 1 := by
  have hne : ∀ p ∈ h0.heap, p.1 ≠ h0.nextAddr := fun p hp => Nat.ne_of_lt (hfresh p hp)
  refine ⟨⟨(h0.nextAddr, ⟨MutexState.idle⟩) :: h0.heap, h0.nextAddr + 1⟩,
          ⟨(h0.nextAddr, ⟨MutexState.locked⟩) :: h0.heap, h0.nextAddr + 1⟩,
          ⟨(h0.nextAddr, ⟨MutexState.idle⟩) :: h0.heap, h0.nextAddr + 1⟩,
          ⟨h0.heap, h0.nextAddr + 1⟩, ?_, ?_, ?_, ?_, rfl, rfl⟩
  · have hu := dynUpdate_cons_self h0.nextAddr ⟨MutexState.idle⟩ ⟨MutexState.uninit⟩
      h0.heap hne
    simp [DynCreateFunction, hu]
  · have hu := dynUpdate_cons_self h0.nextAddr ⟨MutexState.locked⟩ ⟨MutexState.idle⟩
      h0.heap hne
    simp [DynLockFunction, dynLookup, List.find?, CRYPTO_LOCK, pthreadMutexLock, hu]
  · have hu := dynUpdate_cons_self h0.nextAddr ⟨MutexState.idle⟩ ⟨MutexState.locked⟩
      h0.heap hne
    simp [DynLockFunction, dynLookup, List.find?, CRYPTO_UNLOCK, CRYPTO_LOCK,
      pthreadMutexUnlock, hu]
  · have hf := dynFree_cons_self h0.nextAddr ⟨MutexState.idle⟩ h0.heap hne
    simp [DynDestroyFunction, dynLookup, List.find?, pthreadMutexDestroyOp, hf]

/-- Claim C6 witness: the round trip at the empty baseline heap. -/
theorem dynlock_roundtrip_witness :
    ∃ h1 h2 h3 h4,
      DynCreateFunction true ⟨[], 0⟩ = DynCreateResult.ret (some 0) h1 ∧
      DynLockFunction CRYPTO_LOCK 0 h1 = some h2 ∧
      DynLockFunction CRYPTO_UNLOCK 0 h2 = some h3 ∧
      DynDestroyFunction 0 h3 = some h4 ∧
      h4.heap = [] ∧ h4.nextAddr = 1 := by
  simpa using dynlock_roundtrip ⟨[], 0⟩ (by simp)

/-- Claim C7: `DynCreateFunction` either returns a non-null handle whose single
mutex is initialized (idle), with the handle's own address as the opaque
token, or — on allocation failure — aborts fatally via `MS_ABORT`; it
never returns `nullptr` to the library. -/
theorem dynCreate_never_returns_null (allocOk : Bool) (h : DynHeap) :
    returnsNull (DynCreateFunction allocOk h) = false ∧
    (DynCreateFunction allocOk h = DynCreateResult.aborted ∨
      ∃ hp, DynCreateFunction allocOk h = DynCreateResult.ret (some h.nextAddr) hp ∧
        dynLookup hp.heap h.nextAddr = some { mutex := MutexState.idle }) := by
  cases allocOk with
  | false => exact ⟨rfl, Or.inl rfl⟩
  | true =>
    refine ⟨rfl, Or.inr ⟨_, rfl, ?_⟩⟩
    simp [DynCreateFunction, dynLookup, dynUpdate, List.find?]

/-- Claim C8: even when individual `pthread_mutex_destroy` calls fail (return
code `d i ≠ 0`), `ClassDestroy` reports each failure via `MS_ERROR` and
continues: every slot `i < n` still gets its destroy call, the table is
still freed exactly once, and all five callbacks are still
deregistered. -/
theorem classDestroy_continues_on_failure (n : Nat) (d : Nat → Int) :
    ClassInit (mkEnv n d) initialState = Except.ok (postInit n, initTrace n) ∧
    ClassDestroy (mkEnv n d) (postInit n) = some (postDestroy n, destroyTrace d n) ∧
    (∀ i, i < n → Event.pthreadMutexDestroy i (d i) ∈ destroyTrace d n) ∧
    (∀ i, i < n → d i ≠ 0 → Event.msError i ∈ destroyTrace d n) ∧
    (destroyTrace d n).count Event.freeMutexTable = 1 ∧
    (postDestroy n).heap = [] ∧
    (postDestroy n).threadIdCb = false ∧ (postDestroy n).lockingCb = false ∧
    (postDestroy n).dynCreateCb = false ∧ (postDestroy n).dynLockCb = false ∧
    (postDestroy n).dynDestroyCb = false :=
  ⟨classInit_from_start n d, classDestroy_eval n _ d,
   fun i hi => mem_destroyTrace_destroy d n i hi,
   fun i hi hd => mem_destroyTrace_msError d n i hi hd,
   count_free_destroyTrace d n, rfl, rfl, rfl, rfl, rfl, rfl⟩

/-- Claim C8 witness: with two slots where slot 1's destroy fails with EBUSY,
teardown still completes and the failure is reported. -/
theorem classDestroy_continues_on_failure_witness :
    ClassDestroy (mkEnv 2 dFail) (postInit 2)
      = some (postDestroy 2, destroyTrace dFail 2) ∧
    Event.pthreadMutexDestroy 1 16 ∈ destroyTrace dFail 2 ∧
    Event.msError 1 ∈ destroyTrace dFail 2 := by
  obtain ⟨-, h2, h3, h4, -⟩ := classDestroy_continues_on_failure 2 dFail
  refine ⟨h2, ?_, h4 1 (by decide) (by decide)⟩
  simpa [dFail] using h3 1 (by decide)

/-- Claim C9: `LockingFunction` performs no bounds check: under the caller's
precondition `0 ≤ n < length`, its single table access succeeds and the
call is exactly the chosen pthread operation on slot `n`; at an
out-of-range index (e.g. `n = length`) the result is undefined behavior
(`none`), not a detected or reported error. -/
theorem lockingFunction_no_bounds_check (mode : Nat) (n : Int)
    (table : List MutexState) (h0 : 0 ≤ n) (h1 : n.toNat < table.length) :
    (tableAccess table n).isSome ∧
    LockingFunction mode n table =
      ((if mode &&& CRYPTO_LOCK ≠ 0 then pthreadMutexLock (table.get ⟨n.toNat, h1⟩)
        else pthreadMutexUnlock (table.get ⟨n.toNat, h1⟩)).map
        fun m2 => table.set n.toNat m2) ∧
    LockingFunction mode (table.length : Int) table = none := by
  have ha : tableAccess table n = some (table.get ⟨n.toNat, h1⟩) := by
    simp [tableAccess, h0, List.getElem?_eq_getElem h1]
  have hb : tableAccess table (table.length : Int) = none := by
    simp [tableAccess]
  refine ⟨by simp [ha], ?_, ?_⟩
  · rw [LockingFunction]
    by_cases hc : mode &&& CRYPTO_LOCK ≠ 0
    · rw [if_pos hc, if_pos hc, ha]; rfl
    · rw [if_neg hc, if_neg hc, ha]; rfl
  · rw [LockingFunction]
    by_cases hc : mode &&& CRYPTO_LOCK ≠ 0
    · rw [if_pos hc, hb]; rfl
    · rw [if_neg hc, hb]; rfl

/-- Claim C9 witness: a one-slot table — the in-range access succeeds and the
out-of-range call is undefined (`none`). -/
theorem lockingFunction_no_bounds_check_witness :
    (tableAccess [MutexState.idle] 0).isSome ∧
    LockingFunction 1 0 [MutexState.idle] = some [MutexState.locked] ∧
    LockingFunction 1 1 [MutexState.idle] = none := by
  obtain ⟨w1, w2, w3⟩ :=
    lockingFunction_no_bounds_check 1 0 [MutexState.idle] (by decide) (by decide)
  refine ⟨w1, ?_, ?_⟩
  · rw [w2]; rfl
  · simpa using w3

/-- Claim C10: running `ClassDestroy` when `ClassInit` never ran is safe for
the mutex table: from the initial state (`mutexes == nullptr`,
`numMutexes == 0`) the destroy loop runs zero iterations and the
null-pointer guard skips `delete[]`, so no mutex-destroy and no free event
occurs, the heap is untouched, and only the cleanup calls and callback
deregistrations happen. -/
theorem classDestroy_before_init_safe (env : Env) :
    ClassDestroy env initialState =
      some (initialState,
        [Event.errRemoveThreadState, Event.engineCleanup, Event.errFreeStrings,
         Event.evpCleanup, Event.cryptoCleanupAllExData, Event.skSSLCompFree,
         Event.setThreadIdCallback false, Event.setLockingCallback false,
         Event.setDynCreateCallback false, Event.setDynLockCallback false,
         Event.setDynDestroyCallback false]) ∧
    initialState.mutexes = none ∧ initialState.numMutexes = 0 ∧
    initialState.heap = [] :=
  ⟨rfl, rfl, rfl, rfl⟩

end OpenSSL
